import Mathlib

/-!
Shallow embedding of `src/src/libOrsa/orsa_fundamental.cpp` (IPOL_AC_RANSAC).

The file `orsa_fundamental.cpp` contains the orchestration layer of the
robust fundamental-matrix estimator: the error-statistics helper
`display_stats`, the shared refinement step `refine`, and the two entry
operations `ransac_fundamental` and `orsa_fundamental`.

Machine doubles are modelled by real numbers.  The collaborating classes
(`FundamentalModel`, `Ransac`, `Orsa`) are declared in headers that are not
part of the sources here; they are modelled from the specification as
abstract parameters (see the doc comments of `ModelEstimator`,
`RansacEngineT`, `OrsaEngineT` below), so that every theorem about the
orchestration holds for an arbitrary behaviour of those collaborators.
-/

namespace orsa

/-- A correspondence: a pair of 2D points, `(x1,y1)` in image 1 and
`(x2,y2)` in image 2 (struct `Match` of the repository). -/
structure Match where
  x1 : ℝ
  y1 : ℝ
  x2 : ℝ
  y2 : ℝ

instance : Inhabited Match := ⟨⟨0, 0, 0, 0⟩⟩

/-- A 3x3 model matrix (`libNumerics::matrix<double>` of size 3x3),
indexed as `F i j` for `F(i,j)`. -/
abbrev Mat3 := Fin 3 → Fin 3 → ℝ

noncomputable section

/-- Coefficient `a = F(0,0)*x1 + F(1,0)*y1 + F(2,0)` of the epipolar line
computed in the loop of `display_stats` (line 45 of the source). -/
def lineA (F : Mat3) (m : Match) : ℝ := F 0 0 * m.x1 + F 1 0 * m.y1 + F 2 0

/-- Coefficient `b = F(0,1)*x1 + F(1,1)*y1 + F(2,1)` of the epipolar line
computed in the loop of `display_stats` (line 46 of the source). -/
def lineB (F : Mat3) (m : Match) : ℝ := F 0 1 * m.x1 + F 1 1 * m.y1 + F 2 1

/-- Coefficient `c = F(0,2)*x1 + F(1,2)*y1 + F(2,2)` of the epipolar line
computed in the loop of `display_stats` (line 47 of the source). -/
def lineC (F : Mat3) (m : Match) : ℝ := F 0 2 * m.x1 + F 1 2 * m.y1 + F 2 2

/-- Per-correspondence squared error `e = d*d/(a*a+b*b)` with
`d = a*x2 + b*y2 + c`, as computed in the loop body of `display_stats`
(lines 45-49 of the source). -/
def epipolarErr (F : Mat3) (m : Match) : ℝ :=
  let d := lineA F m * m.x2 + lineB F m * m.y2 + lineC F m
  d * d / (lineA F m * lineA F m + lineB F m * lineB F m)

/-- `display_stats(match, in, F)` (lines 38-58 of the source): accumulates
`l2 += e` and `linf = max(linf, e)` over the inlier indices, starting from
`l2 = 0`, `linf = 0`, and returns `(sqrt(l2/in.size()), sqrt(linf))`.
The C++ `if(linf < e) linf = e;` is transcribed literally.  Out-of-range
indices (undefined behaviour in C++) read the default match. -/
def display_stats (matchv : List Match) (inl : List ℕ) (F : Mat3) : ℝ × ℝ :=
  let acc := inl.foldl
    (fun p it =>
      (p.1 + epipolarErr F (matchv.getD it default),
       if p.2 < epipolarErr F (matchv.getD it default) then
         epipolarErr F (matchv.getD it default)
       else p.2))
    ((0 : ℝ), (0 : ℝ))
  (Real.sqrt (acc.1 / (inl.length : ℝ)), Real.sqrt acc.2)

/-- List of per-inlier squared errors used by `display_stats`. -/
def inlierErrs (matchv : List Match) (inl : List ℕ) (F : Mat3) : List ℝ :=
  inl.map fun it => epipolarErr F (matchv.getD it default)

/-- The divisors of the two division sites of `display_stats`:
`l2/in.size()` (line 54) and, per inlier, `(d*d)/(a*a+b*b)` (line 49). -/
def display_stats_divisors (matchv : List Match) (inl : List ℕ) (F : Mat3) :
    List ℝ :=
  ((inl.length : ℕ) : ℝ) ::
    inl.map (fun it =>
      lineA F (matchv.getD it default) * lineA F (matchv.getD it default) +
      lineB F (matchv.getD it default) * lineB F (matchv.getD it default))

end

/-- Modelled from the spec: the parametric model contract of section 4.1
(`ModelEstimator` of `orsa.hpp`, not among the sources here).  `SizeSample`
is `minimalSampleSize()` (7 for the fundamental model, section 4.2);
`ComputeModel(indices)` solves for a model from the indexed correspondences
(least squares when more than a minimal sample) or fails on a degenerate
configuration, rendered by `Option`.  The C++ out-parameter form
`bool ComputeModel(indices, &M)` is rendered as `Option Mat3`. -/
structure ModelEstimator where
  SizeSample : ℕ
  ComputeModel : List ℕ → Option Mat3

/-- Modelled from the spec: stand-in for `build_model` (lines 60-74 of the
source), which packs the correspondences and the two image dimensions into
a `FundamentalModel`; the class itself is not among the sources here, so
the construction is an abstract parameter of the entry operations. -/
abbrev BuildModelT := List Match → ℤ → ℤ → ℤ → ℤ → ModelEstimator

/-- Result of one run of the fixed-threshold consensus engine
`Ransac::run(vec_inliers, precision, nbIterMax, &H, beta, true)`: the
inlier index set and model written through the out-parameters, and the
returned number of iterations actually executed (section 4.3). -/
structure RansacRun where
  inliers : List ℕ
  H : Mat3
  iters : ℕ

/-- Modelled from the spec: the fixed-threshold consensus engine
(`Ransac` of `ransac.hpp`, not among the sources here), as a function of
an abstract seed standing for whatever random state the engine consumes
(the entry operation itself threads no generator), the model built by
`build_model`, the threshold `precision`, the iteration cap and the
success probability `beta`.  The theorems below quantify over every
engine behaviour, so the seed is inert. -/
abbrev RansacEngineT := ℕ → ModelEstimator → ℝ → ℕ → ℝ → RansacRun

/-- Result of one run of the a-contrario engine
`Orsa::run(vec_inliers, nbIter, &precision, &F, true)`: the returned best
`log10(NFA)`, the inlier set and model written through the out-parameters,
the discovered threshold written into `*precision`, and the number of
iterations the engine performed (section 4.4). -/
structure OrsaRun where
  logNFA : ℝ
  inliers : List ℕ
  F : Mat3
  precision : ℝ
  iters : ℕ

/-- Modelled from the spec: the a-contrario consensus engine (`Orsa` of
`orsa.hpp`, not among the sources here), as a function of an abstract
seed standing for whatever random state the engine consumes (the entry
operation itself threads no generator), the model, the two per-image
a-priori terms `alpha0Left`/`alpha0Right` given to the `Orsa`
constructor, the iteration cap and the precision upper bound. -/
abbrev OrsaEngineT := ℕ → ModelEstimator → ℝ → ℝ → ℕ → ℝ → OrsaRun

/-- Output of `refine` (lines 76-94 of the source).  `M` is the final value
of the in-out model `*M`; `inliers` is the inlier set, which `refine`
receives by const reference and therefore never changes; `warning` records
whether one of the two `std::cerr` warnings was emitted. -/
structure RefineOut where
  M : Mat3
  inliers : List ℕ
  warning : Bool

noncomputable section

/-- `refine(model, vec_matchings, vec_inliers, M)` (lines 76-94 of the
source): computes the baseline statistics of the current inliers under the
current model, re-estimates with all inliers, and overwrites `*M` with the
re-estimated model `M2` exactly when
`display_stats(..., M2).first <= maxBefore` where `maxBefore` is the
baseline maximum error `err.second`; otherwise, and when `ComputeModel`
fails, `*M` is kept and a warning is printed. -/
def refine (model : ModelEstimator) (vec_matchings : List Match)
    (vec_inliers : List ℕ) (M : Mat3) : RefineOut :=
  let err := display_stats vec_matchings vec_inliers M
  match model.ComputeModel vec_inliers with
  | some M2 =>
      let maxBefore := err.2
      if (display_stats vec_matchings vec_inliers M2).1 ≤ maxBefore then
        { M := M2, inliers := vec_inliers, warning := false }
      else
        { M := M, inliers := vec_inliers, warning := true }
  | none => { M := M, inliers := vec_inliers, warning := true }

/-- The per-image a-priori term of `orsa_fundamental` (lines 151-157 of
the source): `D = sqrt(w*w + h*h)`, `A = w*h`, `alpha0 = 2*D/A`. -/
def alpha0 (w h : ℤ) : ℝ :=
  let D := Real.sqrt ((w : ℝ) * (w : ℝ) + (h : ℝ) * (h : ℝ))
  let A := (w : ℝ) * (h : ℝ)
  2 * D / A

/-- Output of `ransac_fundamental`: the returned flag `ok`, the final
values of the out-parameters `H` and `vec_inliers`, the printed iteration
count (`0` when the engine is never run), and the engine result when the
engine was run (`none` records that no consensus iteration and no
refinement happened). -/
structure RansacOut where
  ret : Bool
  H : Mat3
  inliers : List ℕ
  iters : ℕ
  engineResult : Option RansacRun

/-- `ransac_fundamental` (lines 106-125 of the source):
`ok = (vec_matchings.size() >= model->SizeSample())`; if `ok`, run the
fixed-threshold engine, print the iteration count, and refine; the
function returns `ok` in both cases.  On the failure path the
out-parameters `H` and `vec_inliers` are untouched. -/
def ransac_fundamental (bm : BuildModelT) (engine : RansacEngineT)
    (seed : ℕ) (vec_matchings : List Match) (w1 h1 w2 h2 : ℤ)
    (precision : ℝ) (nbIterMax : ℕ) (beta : ℝ)
    (H : Mat3) (vec_inliers : List ℕ) : RansacOut :=
  let model := bm vec_matchings w1 h1 w2 h2
  if model.SizeSample ≤ vec_matchings.length then
    let r := engine seed model precision nbIterMax beta
    let rf := refine model vec_matchings r.inliers r.H
    { ret := true, H := rf.M, inliers := r.inliers, iters := r.iters,
      engineResult := some r }
  else
    { ret := false, H := H, inliers := vec_inliers, iters := 0,
      engineResult := none }

/-- Output of `orsa_fundamental`: `ret` is the value the function returns
(the literal `return true;` of line 165); `okVar` is the final value of
the local variable `ok`, which the source computes but never returns;
`F` and `inliers` are the final values of the out-parameters;
`precisionLocal` is the final value of the pass-by-value parameter
`precision` (dead at return); `iters` is the number of engine iterations
(`0` when the engine is never run); `engineResult` records the engine run
when one happened; `refineCalled` records whether `refine` was invoked. -/
structure OrsaOut where
  ret : Bool
  okVar : Bool
  F : Mat3
  inliers : List ℕ
  precisionLocal : ℝ
  iters : ℕ
  engineResult : Option OrsaRun
  refineCalled : Bool

/-- `orsa_fundamental` (lines 139-166 of the source):
`ok = (vec_matchings.size() > model->SizeSample())`; if `ok`, compute
`alpha0Left`/`alpha0Right` from the image dimensions, run the a-contrario
engine with the precision bound, set `ok = false` when the returned
`log10(NFA)` is `> 0.0`, otherwise refine; finally execute `return true;`
(line 165) regardless of `ok`.  The parameter `precision` is received by
value (`double precision`, line 141), so the engine writing through
`&precision` only updates the local copy, recorded in `precisionLocal`. -/
def orsa_fundamental (bm : BuildModelT) (engine : OrsaEngineT)
    (seed : ℕ) (vec_matchings : List Match) (w1 h1 w2 h2 : ℤ)
    (precision : ℝ) (nbIter : ℕ)
    (F : Mat3) (vec_inliers : List ℕ) : OrsaOut :=
  let model := bm vec_matchings w1 h1 w2 h2
  if model.SizeSample < vec_matchings.length then
    let alpha0Left := alpha0 w1 h1
    let alpha0Right := alpha0 w2 h2
    let r := engine seed model alpha0Left alpha0Right nbIter precision
    if r.logNFA > 0 then
      { ret := true, okVar := false, F := r.F, inliers := r.inliers,
        precisionLocal := r.precision, iters := r.iters,
        engineResult := some r, refineCalled := false }
    else
      let rf := refine model vec_matchings r.inliers r.F
      { ret := true, okVar := true, F := rf.M, inliers := r.inliers,
        precisionLocal := r.precision, iters := r.iters,
        engineResult := some r, refineCalled := true }
  else
    { ret := true, okVar := false, F := F, inliers := vec_inliers,
      precisionLocal := precision, iters := 0,
      engineResult := none, refineCalled := false }

/-- A call site of `orsa_fundamental`: because `precision` is passed by
value (line 141), the caller's variable after the call is the value it had
before the call; the pair returned is (result of the call, caller's
precision variable after the call). -/
def orsa_fundamental_call (bm : BuildModelT) (engine : OrsaEngineT)
    (seed : ℕ) (vec_matchings : List Match) (w1 h1 w2 h2 : ℤ)
    (callerPrecision : ℝ) (nbIter : ℕ)
    (F : Mat3) (vec_inliers : List ℕ) : OrsaOut × ℝ :=
  (orsa_fundamental bm engine seed vec_matchings w1 h1 w2 h2
      callerPrecision nbIter F vec_inliers,
   callerPrecision)

/-- The all-zero 3x3 matrix, used as a concrete model value. -/
def zeroMat : Mat3 := fun _ _ => 0

/-- A concrete degenerate correspondence. -/
def demoMatch : Match := ⟨0, 0, 0, 0⟩

/-- Five correspondences: below the minimal sample size 7. -/
def demoMatches5 : List Match := List.replicate 5 demoMatch

/-- Nine correspondences: above the minimal sample size 7. -/
def demoMatches9 : List Match := List.replicate 9 demoMatch

/-- Modelled from the spec: a fundamental model whose minimal sample size
is 7 (section 4.2) and whose least-squares fit always fails. -/
def demoModel : ModelEstimator := ⟨7, fun _ => none⟩

/-- Modelled from the spec: a fundamental model whose minimal sample size
is 7 and whose least-squares fit always returns the zero matrix. -/
def demoModelSome : ModelEstimator := ⟨7, fun _ => some zeroMat⟩

/-- A concrete fixed-threshold engine run that finds nothing: empty inlier
set, zero model, zero iterations. -/
def demoRansacEngine : RansacEngineT := fun _ _ _ _ _ => ⟨[], zeroMat, 0⟩

/-- A concrete a-contrario engine run that finds a meaningful model:
`log10(NFA) = -1`, one inlier, discovered threshold `1/2`. -/
def demoOrsaEngineGood : OrsaEngineT := fun _ _ _ _ _ _ =>
  { logNFA := -1, inliers := [0], F := zeroMat, precision := 1/2, iters := 1 }

/-- A concrete a-contrario engine run that finds no meaningful model:
`log10(NFA) = 1`, empty inlier set, threshold bound untouched. -/
def demoOrsaEngineBad : OrsaEngineT := fun _ _ _ _ _ p =>
  { logNFA := 1, inliers := [], F := zeroMat, precision := p, iters := 3 }

end

/-- The error is a quotient of a square by a sum of squares, hence
non-negative (in the real-number model, division by a zero normal also
yields `0`). -/
theorem epipolarErr_nonneg (F : Mat3) (m : Match) : 0 ≤ epipolarErr F m := by
  unfold epipolarErr
  exact div_nonneg (mul_self_nonneg _)
    (add_nonneg (mul_self_nonneg _) (mul_self_nonneg _))

/-- The C++ update `if(linf < e) linf = e` is the binary max. -/
theorem ite_lt_eq_max (a b : ℝ) : (if a < b then b else a) = max a b := by
  split_ifs with h
  · exact (max_eq_right h.le).symm
  · exact (max_eq_left (not_lt.1 h)).symm

/-- The accumulating loop of `display_stats` computes the running sum and
the running max of the per-inlier errors. -/
theorem foldl_stats (matchv : List Match) (F : Mat3) :
    ∀ (l : List ℕ) (p : ℝ × ℝ),
      l.foldl
        (fun p it =>
          (p.1 + epipolarErr F (matchv.getD it default),
           if p.2 < epipolarErr F (matchv.getD it default) then
             epipolarErr F (matchv.getD it default)
           else p.2)) p
      = (p.1 + (inlierErrs matchv l F).sum,
         (inlierErrs matchv l F).foldl max p.2) := by
  intro l
  induction l with
  | nil => intro p; simp [inlierErrs]
  | cons x xs ih =>
      intro p
      simp only [List.foldl_cons, inlierErrs, List.map_cons, List.sum_cons]
      rw [ih]
      simp only [inlierErrs, List.foldl_cons, ite_lt_eq_max]
      rw [add_assoc]

/-- Folding `max` over a list starting from `a` yields `a` or an element. -/
theorem foldl_max_mem (l : List ℝ) : ∀ a : ℝ, l.foldl max a ∈ a :: l := by
  induction l with
  | nil => intro a; simp
  | cons x xs ih =>
      intro a
      simp only [List.foldl_cons]
      rcases List.mem_cons.1 (ih (max a x)) with h1 | h1
      · rcases max_choice a x with hm | hm
        · rw [h1, hm]; exact List.mem_cons_self _ _
        · rw [h1, hm]
          exact List.mem_cons_of_mem _ (List.mem_cons_self _ _)
      · exact List.mem_cons_of_mem _ (List.mem_cons_of_mem _ h1)

/-- The initial accumulator is below the `max` fold. -/
theorem init_le_foldl_max (l : List ℝ) : ∀ a : ℝ, a ≤ l.foldl max a := by
  induction l with
  | nil => intro a; simp
  | cons x xs ih =>
      intro a
      simp only [List.foldl_cons]
      exact le_trans (le_max_left a x) (ih (max a x))

/-- Every element of `a :: l` is below the `max` fold of `l` started at `a`. -/
theorem le_foldl_max (l : List ℝ) :
    ∀ (a x : ℝ), x ∈ a :: l → x ≤ l.foldl max a := by
  induction l with
  | nil =>
      intro a x hx
      simp only [List.mem_singleton] at hx
      simp [hx]
  | cons y ys ih =>
      intro a x hx
      simp only [List.foldl_cons]
      rcases List.mem_cons.1 hx with rfl | h1
      · exact le_trans (le_max_left x y) (init_le_foldl_max ys (max x y))
      · rcases List.mem_cons.1 h1 with rfl | h2
        · exact le_trans (le_max_right a x) (init_le_foldl_max ys (max a x))
        · exact ih (max a y) x (List.mem_cons_of_mem _ h2)

/-- For a non-empty list of non-negatives, the `max` fold started at `0` is
attained by an element. -/
theorem foldl_max_zero_mem (l : List ℝ) (h0 : ∀ x ∈ l, 0 ≤ x) (hne : l ≠ []) :
    l.foldl max 0 ∈ l := by
  cases l with
  | nil => exact absurd rfl hne
  | cons x xs =>
      simp only [List.foldl_cons]
      rw [max_eq_right (h0 x (List.mem_cons_self x xs))]
      exact foldl_max_mem xs x

/-- Claim C7: for every model matrix `F` and non-empty inlier list,
`display_stats` returns the pair (sqrt of the mean over inliers of `e_i`,
sqrt of the maximum over inliers of `e_i`), where
`e_i = d^2/(a^2+b^2)` is the squared distance of point 2 of inlier `i` to
the epipolar line `(a,b,c)` induced in image 2 by point 1 under `F`:
the RMS and maximum Euclidean pixel distances. -/
theorem c7_display_stats_rms_max (mv : List Match) (inl : List ℕ) (F : Mat3)
    (h : inl ≠ []) :
    display_stats mv inl F =
      (Real.sqrt ((inlierErrs mv inl F).sum / (inl.length : ℝ)),
       Real.sqrt ((inlierErrs mv inl F).foldl max 0)) ∧
    (inlierErrs mv inl F).foldl max 0 ∈ inlierErrs mv inl F ∧
    (∀ it ∈ inl,
      epipolarErr F (mv.getD it default) ≤ (inlierErrs mv inl F).foldl max 0) ∧
    (∀ m : Match,
      epipolarErr F m =
        (lineA F m * m.x2 + lineB F m * m.y2 + lineC F m) ^ 2 /
          ((lineA F m) ^ 2 + (lineB F m) ^ 2)) := by
  have hnn : ∀ x ∈ inlierErrs mv inl F, 0 ≤ x := by
    intro x hx
    rcases List.mem_map.1 hx with ⟨it, _, rfl⟩
    exact epipolarErr_nonneg F _
  refine ⟨?_, ?_, ?_, ?_⟩
  · simp only [display_stats]
    rw [foldl_stats]
    simp
  · have hne : inlierErrs mv inl F ≠ [] := by
      simp only [inlierErrs, ne_eq, List.map_eq_nil_iff]
      exact h
    exact foldl_max_zero_mem _ hnn hne
  · intro it hit
    have hmem : epipolarErr F (mv.getD it default) ∈ inlierErrs mv inl F := by
      simp only [inlierErrs]
      exact List.mem_map_of_mem _ hit
    exact le_foldl_max _ _ _ (List.mem_cons_of_mem _ hmem)
  · intro m
    simp [epipolarErr, pow_two]

/-- Witness for C7 at a concrete non-empty inlier list. -/
theorem c7_witness :
    display_stats demoMatches9 [0] zeroMat =
      (Real.sqrt ((inlierErrs demoMatches9 [0] zeroMat).sum /
          ((([0] : List ℕ).length : ℕ) : ℝ)),
       Real.sqrt ((inlierErrs demoMatches9 [0] zeroMat).foldl max 0)) :=
  (c7_display_stats_rms_max demoMatches9 [0] zeroMat (by decide)).1

/-- Claim C3: when the least-squares re-fit over all inliers succeeds, the
refitted model is written over the current model exactly when its RMS
error over the same inlier set is at most the baseline model's maximum
error. -/
theorem c3_refine_accept_iff (model : ModelEstimator) (mv : List Match)
    (inl : List ℕ) (M M2 : Mat3) (h : model.ComputeModel inl = some M2) :
    (refine model mv inl M).M =
      (if (display_stats mv inl M2).1 ≤ (display_stats mv inl M).2 then M2
       else M) := by
  simp only [refine, h]
  split_ifs <;> rfl

/-- Witness for C3 at a concrete model whose re-fit succeeds. -/
theorem c3_witness :
    (refine demoModelSome demoMatches9 [0] zeroMat).M =
      (if (display_stats demoMatches9 [0] zeroMat).1 ≤
          (display_stats demoMatches9 [0] zeroMat).2 then zeroMat
       else zeroMat) :=
  c3_refine_accept_iff demoModelSome demoMatches9 [0] zeroMat zeroMat rfl

/-- Claim C4: whenever refinement is rejected — the re-fit fails, or the
refitted RMS exceeds the pre-refinement maximum error — the model and the
inlier index set keep exactly their pre-refinement values and only a
warning is emitted (the operation completes normally). -/
theorem c4_refine_reject_frame (model : ModelEstimator) (mv : List Match)
    (inl : List ℕ) (M : Mat3) :
    (model.ComputeModel inl = none →
      refine model mv inl M = { M := M, inliers := inl, warning := true }) ∧
    (∀ M2, model.ComputeModel inl = some M2 →
      ¬ (display_stats mv inl M2).1 ≤ (display_stats mv inl M).2 →
      refine model mv inl M = { M := M, inliers := inl, warning := true }) := by
  constructor
  · intro h
    simp [refine, h]
  · intro M2 h hgt
    simp [refine, h, hgt]

/-- Witness for C4 at a concrete model whose re-fit fails. -/
theorem c4_witness :
    refine demoModel demoMatches9 [0] zeroMat =
      { M := zeroMat, inliers := [0], warning := true } :=
  (c4_refine_reject_frame demoModel demoMatches9 [0] zeroMat).1 rfl

/-- Claim C2: `ransac_fundamental` returns `ok = false` exactly when there
are fewer correspondences than the model's minimal sample size, and
returns `ok = true` whenever there are at least that many, for every
behaviour of the consensus engine (regardless of the model found or the
size of the inlier set). -/
theorem c2_ransac_ok_iff (bm : BuildModelT) (engine : RansacEngineT)
    (seed : ℕ) (mv : List Match) (w1 h1 w2 h2 : ℤ) (p : ℝ) (ni : ℕ) (b : ℝ)
    (H0 : Mat3) (in0 : List ℕ) :
    ((ransac_fundamental bm engine seed mv w1 h1 w2 h2 p ni b H0 in0).ret =
        false ↔ mv.length < (bm mv w1 h1 w2 h2).SizeSample) ∧
    ((bm mv w1 h1 w2 h2).SizeSample ≤ mv.length →
      (ransac_fundamental bm engine seed mv w1 h1 w2 h2 p ni b H0 in0).ret =
        true) := by
  constructor
  · simp only [ransac_fundamental]
    split_ifs with hc
    · have hlt : ¬ mv.length < (bm mv w1 h1 w2 h2).SizeSample := by omega
      simp [hlt]
    · have hlt : mv.length < (bm mv w1 h1 w2 h2).SizeSample := by omega
      simp [hlt]
  · intro h
    simp only [ransac_fundamental]
    rw [if_pos h]

/-- Witness for C2: with nine correspondences and a minimal sample size of
seven, the call returns `ok = true` even though the engine found nothing. -/
theorem c2_witness :
    (ransac_fundamental (fun _ _ _ _ _ => demoModel) demoRansacEngine 0
        demoMatches9 1000 800 1000 800 3 100 (95 / 100) zeroMat []).ret =
      true :=
  (c2_ransac_ok_iff (fun _ _ _ _ _ => demoModel) demoRansacEngine 0
      demoMatches9 1000 800 1000 800 3 100 (95 / 100) zeroMat []).2
    (by decide)

/-- Claim C6: with too few correspondences (fewer than the minimal sample
size for `ransac_fundamental`, no more than it for `orsa_fundamental`),
both entry operations abort before any estimation: the engine is never
run (zero iterations), no refinement is attempted, and the output model
matrix and inlier index list are left unmodified. -/
theorem c6_insufficient_data_frame (bm : BuildModelT) (re : RansacEngineT)
    (oe : OrsaEngineT) (seed : ℕ) (mv : List Match) (w1 h1 w2 h2 : ℤ)
    (p : ℝ) (ni : ℕ) (b : ℝ) (H0 F0 : Mat3) (in0 : List ℕ) :
    (mv.length < (bm mv w1 h1 w2 h2).SizeSample →
      ransac_fundamental bm re seed mv w1 h1 w2 h2 p ni b H0 in0 =
        { ret := false, H := H0, inliers := in0, iters := 0,
          engineResult := none }) ∧
    (mv.length ≤ (bm mv w1 h1 w2 h2).SizeSample →
      orsa_fundamental bm oe seed mv w1 h1 w2 h2 p ni F0 in0 =
        { ret := true, okVar := false, F := F0, inliers := in0,
          precisionLocal := p, iters := 0, engineResult := none,
          refineCalled := false }) := by
  constructor
  · intro h
    simp only [ransac_fundamental]
    rw [if_neg (by omega)]
  · intro h
    simp only [orsa_fundamental]
    rw [if_neg (by omega)]

/-- Witness for C6: five correspondences, minimal sample size seven. -/
theorem c6_witness :
    ransac_fundamental (fun _ _ _ _ _ => demoModel) demoRansacEngine 0
        demoMatches5 1000 800 1000 800 3 100 (95 / 100) zeroMat [] =
      { ret := false, H := zeroMat, inliers := [], iters := 0,
        engineResult := none } :=
  (c6_insufficient_data_frame (fun _ _ _ _ _ => demoModel) demoRansacEngine
      demoOrsaEngineGood 0 demoMatches5 1000 800 1000 800 3 100 (95 / 100)
      zeroMat zeroMat []).1 (by decide)

/-- Claim C8: for image dimensions of positive area, the per-image
a-priori term computed by `orsa_fundamental` is `2*diagonal/area`, i.e.
`2*sqrt(w^2+h^2)/(w*h)`, and the two images' terms are computed
independently from `(w1,h1)` and `(w2,h2)` and passed to the a-contrario
engine. -/
theorem c8_alpha0_formula :
    (∀ w h : ℤ, 0 < (w : ℝ) * (h : ℝ) →
      alpha0 w h =
        2 * Real.sqrt ((w : ℝ) ^ 2 + (h : ℝ) ^ 2) / ((w : ℝ) * (h : ℝ))) ∧
    (∀ (bm : BuildModelT) (oe : OrsaEngineT) (seed : ℕ) (mv : List Match)
        (w1 h1 w2 h2 : ℤ) (p : ℝ) (ni : ℕ) (F0 : Mat3) (in0 : List ℕ),
      (bm mv w1 h1 w2 h2).SizeSample < mv.length →
      (orsa_fundamental bm oe seed mv w1 h1 w2 h2 p ni F0 in0).engineResult =
        some (oe seed (bm mv w1 h1 w2 h2) (alpha0 w1 h1) (alpha0 w2 h2)
          ni p)) := by
  constructor
  · intro w h _
    simp [alpha0, pow_two]
  · intro bm oe seed mv w1 h1 w2 h2 p ni F0 in0 h
    simp only [orsa_fundamental]
    rw [if_pos h]
    split_ifs <;> rfl

/-- Witness for C8 at dimensions 1000 x 800. -/
theorem c8_witness :
    alpha0 1000 800 =
      2 * Real.sqrt (((1000 : ℤ) : ℝ) ^ 2 + ((800 : ℤ) : ℝ) ^ 2) /
        (((1000 : ℤ) : ℝ) * ((800 : ℤ) : ℝ)) :=
  c8_alpha0_formula.1 1000 800 (by norm_num)

/-- Claim C10: `display_stats` divides by `in.size()` and, per inlier, by
`a*a+b*b`, without guards: all its divisors are nonzero exactly when the
inlier list is non-empty and every inlier's epipolar line normal `(a,b)`
is nonzero; on an empty list the mean is a division with denominator `0`;
and `ransac_fundamental` invokes refinement — hence `display_stats` —
unconditionally whenever the input size reaches the minimal sample size,
including when the engine produced an empty inlier list, in which case the
divisor `in.size()` of the `l2/in.size()` division is `0`. -/
theorem c10_display_stats_divzero :
    (∀ (mv : List Match) (inl : List ℕ) (F : Mat3),
      (∀ d ∈ display_stats_divisors mv inl F, d ≠ 0) ↔
        (inl ≠ [] ∧ ∀ it ∈ inl,
          ¬ (lineA F (mv.getD it default) = 0 ∧
             lineB F (mv.getD it default) = 0))) ∧
    (∀ (mv : List Match) (F : Mat3),
      display_stats mv [] F = (Real.sqrt ((0 : ℝ) / (0 : ℝ)), Real.sqrt 0)) ∧
    (∀ (bm : BuildModelT) (engine : RansacEngineT) (seed : ℕ)
        (mv : List Match) (w1 h1 w2 h2 : ℤ) (p : ℝ) (ni : ℕ) (b : ℝ)
        (H0 : Mat3) (in0 : List ℕ),
      (bm mv w1 h1 w2 h2).SizeSample ≤ mv.length →
      (ransac_fundamental bm engine seed mv w1 h1 w2 h2 p ni b H0 in0).H =
        (refine (bm mv w1 h1 w2 h2) mv
          (engine seed (bm mv w1 h1 w2 h2) p ni b).inliers
          (engine seed (bm mv w1 h1 w2 h2) p ni b).H).M ∧
      ((engine seed (bm mv w1 h1 w2 h2) p ni b).inliers = [] →
        (0 : ℝ) ∈ display_stats_divisors mv
          (engine seed (bm mv w1 h1 w2 h2) p ni b).inliers
          (engine seed (bm mv w1 h1 w2 h2) p ni b).H)) := by
  refine ⟨?_, ?_, ?_⟩
  · intro mv inl F
    constructor
    · intro hall
      refine ⟨?_, ?_⟩
      · intro hnil
        have h0 := hall ((inl.length : ℕ) : ℝ) (List.mem_cons_self _ _)
        exact h0 (by rw [hnil]; simp)
      · rintro it hit ⟨ha, hb⟩
        have hm : (lineA F (mv.getD it default) * lineA F (mv.getD it default)
            + lineB F (mv.getD it default) * lineB F (mv.getD it default)) ∈
            display_stats_divisors mv inl F := by
          simp only [display_stats_divisors, List.mem_cons]
          exact Or.inr (List.mem_map_of_mem _ hit)
        exact hall _ hm (by rw [ha, hb]; ring)
    · rintro ⟨hne, hnorm⟩ d hd
      simp only [display_stats_divisors, List.mem_cons, List.mem_map] at hd
      rcases hd with rfl | ⟨it, hit, rfl⟩
      · simp only [ne_eq, Nat.cast_eq_zero]
        exact fun h0 => hne (List.length_eq_zero.1 h0)
      · intro h0
        have haa : lineA F (mv.getD it default) *
            lineA F (mv.getD it default) = 0 := by
          have h1 := mul_self_nonneg (lineA F (mv.getD it default))
          have h2 := mul_self_nonneg (lineB F (mv.getD it default))
          linarith
        have hbb : lineB F (mv.getD it default) *
            lineB F (mv.getD it default) = 0 := by
          have h1 := mul_self_nonneg (lineA F (mv.getD it default))
          have h2 := mul_self_nonneg (lineB F (mv.getD it default))
          linarith
        exact hnorm it hit ⟨mul_self_eq_zero.1 haa, mul_self_eq_zero.1 hbb⟩
  · intro mv F
    simp [display_stats]
  · intro bm engine seed mv w1 h1 w2 h2 p ni b H0 in0 h
    constructor
    · simp only [ransac_fundamental]
      rw [if_pos h]
    · intro hemp
      rw [hemp]
      simp [display_stats_divisors]

/-- Witness for C10: the concrete engine returns an empty inlier list on
nine correspondences, and the zero divisor is among the divisors of the
`display_stats` call performed by the unconditional refinement. -/
theorem c10_witness :
    (0 : ℝ) ∈ display_stats_divisors demoMatches9
      (demoRansacEngine 0 demoModel 3 100 (95 / 100)).inliers
      (demoRansacEngine 0 demoModel 3 100 (95 / 100)).H :=
  ((c10_display_stats_divzero.2.2 (fun _ _ _ _ _ => demoModel)
      demoRansacEngine 0 demoMatches9 1000 800 1000 800 3 100 (95 / 100)
      zeroMat []) (by decide)).2 rfl

/-- Claim C1 (code bug): `orsa_fundamental` ends with `return true;`
(line 165), so the function returns `true` even when the input is
structurally insufficient — here five correspondences against a minimal
sample size of seven — although the internal `ok` flag is `false`; the
claim (and the function's own doc comment) say the status is returned.
The second scenario shows the same with enough correspondences but a
best `log10(NFA)` of `1 >= 0` (no meaningful model). -/
theorem c1_orsa_returns_true_bug :
    demoMatches5.length ≤ demoModel.SizeSample ∧
    (orsa_fundamental (fun _ _ _ _ _ => demoModel) demoOrsaEngineGood 0
        demoMatches5 1000 800 1000 800 3 1000 zeroMat []).ret = true ∧
    (orsa_fundamental (fun _ _ _ _ _ => demoModel) demoOrsaEngineGood 0
        demoMatches5 1000 800 1000 800 3 1000 zeroMat []).okVar = false ∧
    (orsa_fundamental (fun _ _ _ _ _ => demoModel) demoOrsaEngineBad 0
        demoMatches9 1000 800 1000 800 3 1000 zeroMat []).ret = true ∧
    (orsa_fundamental (fun _ _ _ _ _ => demoModel) demoOrsaEngineBad 0
        demoMatches9 1000 800 1000 800 3 1000 zeroMat []).okVar = false := by
  refine ⟨by decide, rfl, rfl, ?_, ?_⟩
  · simp only [orsa_fundamental]
    rw [if_pos (by decide)]
    rw [if_pos (by norm_num [demoOrsaEngineBad])]
  · simp only [orsa_fundamental]
    rw [if_pos (by decide)]
    rw [if_pos (by norm_num [demoOrsaEngineBad])]

/-- Claim C5 (code bug): `precision` is passed by value (line 141) though
documented as in-out, so after a successful run the caller's variable
still holds the original bound `3` while the engine's discovered threshold
`1/2` only reached the function-local copy. -/
theorem c5_precision_not_written_back :
    (orsa_fundamental_call (fun _ _ _ _ _ => demoModelSome)
        demoOrsaEngineGood 0 demoMatches9 1000 800 1000 800 3 1000
        zeroMat []).2 = 3 ∧
    (orsa_fundamental_call (fun _ _ _ _ _ => demoModelSome)
        demoOrsaEngineGood 0 demoMatches9 1000 800 1000 800 3 1000
        zeroMat []).1.precisionLocal = 1 / 2 ∧
    (1 / 2 : ℝ) ≠ 3 := by
  refine ⟨rfl, ?_, by norm_num⟩
  simp only [orsa_fundamental_call, orsa_fundamental]
  rw [if_pos (by decide)]
  rw [if_neg (by norm_num [demoOrsaEngineGood])]
  rfl

end orsa
